import Mathlib

/-!
Shallow embedding of `plugins/ai-council/scripts/consult.py`.

The script orchestrates a multi-round consultation: a question is sent to a
set of AI agents (CLI tools or an HTTP API); each later round re-prompts the
agents with the accumulated previous successful responses.

External effects (subprocess execution, HTTP, environment variables) are
modelled by explicit event parameters: each call site receives an event value
describing what the outside world did, and the embedded function computes the
same result the Python code computes on that event.
-/

/-- `AIAgent` dataclass (consult.py lines 20-25). -/
structure AIAgent where
  name : String
  command : List String
  available : Bool
  is_api : Bool
deriving DecidableEq, Repr

/-- Outcome of the `subprocess.run` call inside `query_agent`:
either the process completed (with return code, stdout, stderr),
or `subprocess.TimeoutExpired` was raised, or some other exception. -/
inductive CliEvent where
  | completed (returncode : Int) (stdout stderr : String)
  | timedOut
  | exn (msg : String)
deriving DecidableEq, Repr

/-- Outcome of the `urllib.request.urlopen` call inside `query_perplexity_api`:
a parsed JSON response (with an optional `output` field and the stringified
full body), an HTTPError, a URLError, a TimeoutError, or another exception. -/
inductive ApiEvent where
  | ok (outputField : Option String) (fullBody : String)
  | httpError (code : Int) (reason : String)
  | urlError (reason : String)
  | timedOut
  | exn (msg : String)
deriving DecidableEq, Repr

/-- Outcome of the `subprocess.run(["which"/"where", cmd], check=True)` probe
inside `check_cli_available`: either the probe command itself ran to
completion with some return code, or the attempt to launch it raised an
OS-level exception (e.g. `FileNotFoundError` if `which` is missing). -/
inductive ProbeEvent where
  | completed (returncode : Int)
  | osError (msg : String)
deriving DecidableEq, Repr

/-- Environment seen by one `query_agent` call: the behaviour of the
subprocess (CLI agents), of the HTTP request (API agents), and the value of
the `PERPLEXITY_API_KEY` environment variable. -/
structure CallEnv where
  cli : CliEvent
  api : ApiEvent
  apiKey : Option String
deriving DecidableEq, Repr

/-- `check_cli_available` (consult.py lines 28-38).  `check=True` raises
`CalledProcessError` exactly when the probe exits non-zero, and that is the
only exception the `except` clause catches; an OS-level launch failure
propagates, modelled as `Except.error`. -/
def check_cli_available (ev : ProbeEvent) : Except String Bool :=
  match ev with
  | .completed rc => if rc = 0 then .ok true else .ok false
  | .osError msg => .error msg

/-- `check_perplexity_available` (consult.py lines 41-43):
`bool(os.environ.get("PERPLEXITY_API_KEY"))` — an unset or empty variable is
falsy. -/
def check_perplexity_available (apiKey : Option String) : Bool :=
  apiKey.getD "" ≠ ""

/-- Python's `str.strip()`: drop leading and trailing whitespace. -/
def pyStrip (s : String) : String :=
  ⟨((s.data.dropWhile Char.isWhitespace).reverse.dropWhile Char.isWhitespace).reverse⟩

/-- `query_perplexity_api` (consult.py lines 46-75).  Returns the Python
triple `(agent_name, response, error)`. -/
def query_perplexity_api (prompt : String) (timeout : Nat) (env : CallEnv) :
    String × String × Option String :=
  let _ := prompt
  if env.apiKey.getD "" = "" then
    ("Perplexity", "", some "PERPLEXITY_API_KEY not set")
  else
    match env.api with
    | .ok outputField fullBody => ("Perplexity", outputField.getD fullBody, none)
    | .httpError code reason => ("Perplexity", "", some ("HTTP " ++ toString code ++ ": " ++ reason))
    | .urlError reason => ("Perplexity", "", some ("URL Error: " ++ reason))
    | .timedOut => ("Perplexity", "", some ("Timeout after " ++ toString timeout ++ "s"))
    | .exn msg => ("Perplexity", "", some msg)

/-- `query_agent` (consult.py lines 106-143).  Returns the Python triple
`(agent_name, response, error)`. -/
def query_agent (agent : AIAgent) (prompt : String) (timeout : Nat) (env : CallEnv) :
    String × String × Option String :=
  if !agent.available then
    if agent.is_api then
      (agent.name, "", some (agent.name ++ " API key not configured"))
    else
      (agent.name, "", some (agent.name ++ " CLI not available"))
  else if agent.is_api then
    if agent.name = "Perplexity" then
      query_perplexity_api prompt timeout env
    else
      (agent.name, "", some ("Unknown API agent: " ++ agent.name))
  else
    match env.cli with
    | .completed rc out err =>
        let output := pyStrip out
        let output :=
          if rc ≠ 0 ∧ err ≠ "" then output ++ "\n[stderr: " ++ pyStrip err ++ "]" else output
        (agent.name, output, none)
    | .timedOut => (agent.name, "", some ("Timeout after " ++ toString timeout ++ "s"))
    | .exn msg => (agent.name, "", some msg)

/-- Python's `"sep".join(parts)`. -/
def joinSep (sep : String) : List String → String
  | [] => ""
  | [x] => x
  | x :: y :: ys => x ++ sep ++ joinSep sep (y :: ys)

/-- An insertion-ordered string-keyed dictionary, as Python's `dict`:
an association list with unique keys, where updating an existing key keeps
its position and inserting a new key appends. -/
abbrev PyDict (α : Type) := List (String × α)

/-- `d[k] = v` on a Python dict. -/
def dinsert (d : PyDict α) (k : String) (v : α) : PyDict α :=
  if d.any (fun p => p.1 = k) then
    d.map (fun p => if p.1 = k then (k, v) else p)
  else
    d ++ [(k, v)]

/-- `d.get(k)` on a Python dict. -/
def dlookup (d : PyDict α) (k : String) : Option α :=
  (d.find? (fun p => p.1 = k)).map (·.2)

/-- The keys of a Python dict, in order. -/
def dkeys (d : PyDict α) : List String := d.map (·.1)

/-- `format_previous_responses` (consult.py lines 146-152): one labelled
block per entry with a truthy (non-empty) response, joined by `"\n"`. -/
def format_previous_responses (responses : PyDict String) : String :=
  joinSep "\n"
    ((responses.filter (fun p => p.2 ≠ "")).map
      (fun p => "--- " ++ p.1 ++ " ---\n" ++ p.2 ++ "\n"))

/-- The round prompt built in `run_consultation` (consult.py lines 199-215),
a pure function of the round number, the question and the accumulated
responses. -/
def build_prompt (round_num : Nat) (question : String) (all_responses : PyDict String) : String :=
  if round_num = 1 then
    "You are participating in a multi-AI consultation. " ++
    "Answer the following question thoughtfully and concisely (2-3 paragraphs).\n\n" ++
    "Question: " ++ question
  else
    "You are participating in a multi-AI consultation. " ++
    "Here is the question and responses from the previous round:\n\n" ++
    "Question: " ++ question ++ "\n\n" ++
    "Previous responses:\n" ++ format_previous_responses all_responses ++ "\n\n" ++
    "Consider these perspectives. Do you agree, disagree, or have additional insights? " ++
    "Be concise (2-3 paragraphs)."

/-- One round's result dict (consult.py line 197). -/
structure RoundResult where
  round : Nat
  responses : PyDict String
  errors : PyDict String
deriving DecidableEq, Repr

/-- The per-call environments of a run: one `CallEnv` per (round, agent key). -/
abbrev Events := Nat → String → CallEnv

/-- Recording one completed `query_agent` future (consult.py lines 224-230):
a truthy `error` goes to the `errors` dict; otherwise the response goes to
the `responses` dict and into `all_responses`. -/
def round_step (prompt : String) (round_num : Nat) (timeout : Nat) (events : Events)
    (st : RoundResult × PyDict String) (p : String × AIAgent) : RoundResult × PyDict String :=
  let (rr, allr) := st
  let (agent_name, response, error) := query_agent p.2 prompt timeout (events round_num p.1)
  match error with
  | some e =>
      if e ≠ "" then
        ({ rr with errors := dinsert rr.errors agent_name e }, allr)
      else
        ({ rr with responses := dinsert rr.responses agent_name response },
         dinsert allr agent_name response)
  | none =>
      ({ rr with responses := dinsert rr.responses agent_name response },
       dinsert allr agent_name response)

/-- One iteration of the round loop of `run_consultation`
(consult.py lines 196-232): build the prompt, query every available agent,
record each outcome, and fold successes into `all_responses`. -/
def run_round (question : String) (round_num : Nat)
    (available_agents : PyDict AIAgent) (all_responses : PyDict String)
    (timeout : Nat) (events : Events) : RoundResult × PyDict String :=
  let prompt := build_prompt round_num question all_responses
  available_agents.foldl (round_step prompt round_num timeout events)
    ({ round := round_num, responses := [], errors := [] }, all_responses)

/-- The first `k` iterations of the round loop: list of round results so far
and the accumulated `all_responses` after round `k`. -/
def consult_rounds (question : String) (available_agents : PyDict AIAgent)
    (timeout : Nat) (events : Events) : Nat → List RoundResult × PyDict String
  | 0 => ([], [])
  | k + 1 =>
      let (rrs, tr) := consult_rounds question available_agents timeout events k
      let (rr, tr') := run_round question (k + 1) available_agents tr timeout events
      (rrs ++ [rr], tr')

/-- The `results` dict of `run_consultation` (consult.py lines 187-192). -/
structure ConsultResult where
  question : String
  rounds : List RoundResult
  participants : List String
  unavailable : List String
deriving DecidableEq, Repr

/-- Return value of `run_consultation`: either the single top-level error
dict or the results dict. -/
inductive ConsultOutput where
  | error (msg : String)
  | ok (r : ConsultResult)
deriving DecidableEq, Repr

/-- The selection filter of `run_consultation` (consult.py lines 178-179):
`if selected_agents:` is Python truthiness, so the filter applies only when
the list is given and non-empty. -/
def select_agents (agents : PyDict AIAgent) (selected_agents : Option (List String)) :
    PyDict AIAgent :=
  match selected_agents with
  | some l => if l ≠ [] then agents.filter (fun p => l.contains p.1) else agents
  | none => agents

/-- The availability filter of `run_consultation` (consult.py line 182). -/
def available_of (agents : PyDict AIAgent) : PyDict AIAgent :=
  agents.filter (fun p => p.2.available)

/-- `run_consultation` (consult.py lines 155-246). -/
def run_consultation (question : String) (agents : PyDict AIAgent)
    (selected_agents : Option (List String)) (rounds : Nat) (timeout : Nat)
    (events : Events) : ConsultOutput :=
  let agents := select_agents agents selected_agents
  let available_agents := available_of agents
  if available_agents.isEmpty then
    .error "No AI agents available"
  else
    let (rrs, _) := consult_rounds question available_agents timeout events rounds
    .ok
      { question := question
        rounds := rrs
        participants := dkeys available_agents
        unavailable := dkeys (agents.filter (fun p => !p.2.available)) }

/-! ### String containment -/

/-- `pat` occurs verbatim in `s`. -/
def containsStr (s pat : String) : Prop :=
  ∃ l r, s = l ++ pat ++ r

/-- The pattern matches at the head of the character list. -/
def subAt : List Char → List Char → Bool
  | [], _ => true
  | _ :: _, [] => false
  | a :: as, b :: bs => if a = b then subAt as bs else false

/-- The pattern matches somewhere in the character list. -/
def hasSub (pat : List Char) : List Char → Bool
  | [] => subAt pat []
  | b :: bs => subAt pat (b :: bs) || hasSub pat bs

/-- Executable substring test. -/
def strContainsB (s pat : String) : Bool :=
  hasSub pat.data s.data

lemma subAt_self_append (p r : List Char) : subAt p (p ++ r) = true := by
  induction p with
  | nil => rfl
  | cons a as ih => simp [subAt, ih]

lemma hasSub_nil_pat (s : List Char) : hasSub [] s = true := by
  cases s <;> simp [hasSub, subAt]

lemma hasSub_append (l p r : List Char) : hasSub p (l ++ p ++ r) = true := by
  induction l with
  | nil =>
      cases p with
      | nil => exact hasSub_nil_pat _
      | cons a as =>
          simp only [List.nil_append, List.cons_append, hasSub, Bool.or_eq_true]
          exact Or.inl (subAt_self_append (a :: as) r)
  | cons c cs ih =>
      simp only [List.cons_append, hasSub, Bool.or_eq_true]
      exact Or.inr ih

lemma strContainsB_of_containsStr {s pat : String} (h : containsStr s pat) :
    strContainsB s pat = true := by
  obtain ⟨l, r, rfl⟩ := h
  unfold strContainsB
  rw [String.data_append, String.data_append]
  exact hasSub_append l.data pat.data r.data

lemma containsStr_append_right (a : String) {b pat : String} (h : containsStr b pat) :
    containsStr (a ++ b) pat := by
  obtain ⟨l, r, rfl⟩ := h
  exact ⟨a ++ l, r, by simp [String.append_assoc]⟩

lemma containsStr_append_left {a pat : String} (b : String) (h : containsStr a pat) :
    containsStr (a ++ b) pat := by
  obtain ⟨l, r, rfl⟩ := h
  exact ⟨l, r ++ b, by simp [String.append_assoc]⟩

lemma containsStr_trans {s b pat : String} (hsb : containsStr s b) (h : containsStr b pat) :
    containsStr s pat := by
  obtain ⟨l, r, rfl⟩ := hsb
  obtain ⟨l2, r2, rfl⟩ := h
  exact ⟨l ++ l2, r2 ++ r, by simp [String.append_assoc]⟩

lemma mem_joinSep {sep x : String} {parts : List String} (h : x ∈ parts) :
    containsStr (joinSep sep parts) x := by
  induction parts with
  | nil => cases h
  | cons a l ih =>
      rcases List.mem_cons.mp h with rfl | hx
      · cases l with
        | nil => exact ⟨"", "", by simp [joinSep]⟩
        | cons b bs =>
            exact ⟨"", sep ++ joinSep sep (b :: bs), by simp [joinSep, String.append_assoc]⟩
      · cases l with
        | nil => cases hx
        | cons b bs =>
            simp only [joinSep]
            exact containsStr_append_right _ (ih hx)

/-! ### Dictionary lemmas -/

lemma dkeys_cons {α : Type} (q : String × α) (d : PyDict α) :
    dkeys (q :: d) = q.1 :: dkeys d := rfl

lemma dlookup_cons {α : Type} (p : String × α) (d : PyDict α) (n : String) :
    dlookup (p :: d) n = if p.1 = n then some p.2 else dlookup d n := by
  by_cases h : p.1 = n <;> simp [dlookup, List.find?_cons, h]

lemma any_key_eq_iff_mem_dkeys {α : Type} (d : PyDict α) (k : String) :
    d.any (fun p => p.1 = k) = true ↔ k ∈ dkeys d := by
  rw [List.any_eq_true]
  constructor
  · rintro ⟨p, hp, he⟩
    exact List.mem_map.mpr ⟨p, hp, of_decide_eq_true he⟩
  · intro hk
    obtain ⟨p, hp, he⟩ := List.mem_map.mp hk
    exact ⟨p, hp, decide_eq_true he⟩

lemma dlookup_map_update_ne {α : Type} (d : PyDict α) (k : String) (v : α) {n : String}
    (hne : n ≠ k) :
    dlookup (d.map (fun p => if p.1 = k then (k, v) else p)) n = dlookup d n := by
  induction d with
  | nil => rfl
  | cons q d ih =>
      by_cases hq : q.1 = k
      · rw [List.map_cons, if_pos hq, dlookup_cons, dlookup_cons, ih,
          if_neg (show ¬((k, v).1 = n) from fun h => hne h.symm),
          if_neg (show ¬(q.1 = n) from fun h => hne (hq.symm.trans h).symm)]
      · rw [List.map_cons, if_neg hq, dlookup_cons, dlookup_cons, ih]

lemma dlookup_map_update_mem {α : Type} (d : PyDict α) (k : String) (v : α)
    (hk : k ∈ dkeys d) :
    dlookup (d.map (fun p => if p.1 = k then (k, v) else p)) k = some v := by
  induction d with
  | nil => cases hk
  | cons q d ih =>
      by_cases hq : q.1 = k
      · rw [List.map_cons, if_pos hq, dlookup_cons, if_pos rfl]
      · rcases List.mem_cons.mp (dkeys_cons q d ▸ hk) with h | h
        · exact absurd h.symm hq
        · rw [List.map_cons, if_neg hq, dlookup_cons, if_neg hq, ih h]

lemma dlookup_append_single {α : Type} (d : PyDict α) (k : String) (v : α) (n : String)
    (hk : k ∉ dkeys d) :
    dlookup (d ++ [(k, v)]) n = if n = k then some v else dlookup d n := by
  induction d with
  | nil =>
      by_cases h : n = k
      · subst h; simp [dlookup, List.find?]
      · simp [dlookup, List.find?, h, show ¬(k = n) from fun hh => h hh.symm]
  | cons q d ih =>
      have hqk : q.1 ≠ k := fun h => hk (dkeys_cons q d ▸ List.mem_cons.mpr (Or.inl h.symm))
      have hk' : k ∉ dkeys d := fun h => hk (dkeys_cons q d ▸ List.mem_cons.mpr (Or.inr h))
      rw [List.cons_append, dlookup_cons, dlookup_cons, ih hk']
      by_cases hqn : q.1 = n
      · rw [if_pos hqn, if_pos hqn, if_neg (show ¬(n = k) from fun h => hqk (hqn.trans h))]
      · rw [if_neg hqn, if_neg hqn]

lemma dlookup_dinsert {α : Type} (d : PyDict α) (k : String) (v : α) (n : String) :
    dlookup (dinsert d k v) n = if n = k then some v else dlookup d n := by
  unfold dinsert
  by_cases hk : k ∈ dkeys d
  · rw [if_pos ((any_key_eq_iff_mem_dkeys d k).mpr hk)]
    by_cases hn : n = k
    · subst hn; rw [if_pos rfl, dlookup_map_update_mem d n v hk]
    · rw [if_neg hn, dlookup_map_update_ne d k v hn]
  · rw [if_neg (fun hany => hk ((any_key_eq_iff_mem_dkeys d k).mp hany))]
    exact dlookup_append_single d k v n hk

lemma mem_dkeys_iff_isSome {α : Type} (d : PyDict α) (n : String) :
    n ∈ dkeys d ↔ (dlookup d n).isSome := by
  induction d with
  | nil => simp [dkeys, dlookup, List.find?]
  | cons q d ih =>
      rw [dlookup_cons, dkeys_cons]
      by_cases hq : q.1 = n
      · simp [hq]
      · simp only [List.mem_cons, if_neg hq]
        constructor
        · rintro (h | h)
          · exact absurd h.symm hq
          · exact ih.mp h
        · exact fun h => Or.inr (ih.mpr h)

lemma dinsert_of_notMem {α : Type} (d : PyDict α) (k : String) (v : α)
    (hk : k ∉ dkeys d) : dinsert d k v = d ++ [(k, v)] := by
  unfold dinsert
  rw [if_neg (fun hany => hk ((any_key_eq_iff_mem_dkeys d k).mp hany))]

lemma dkeys_append {α : Type} (d e : PyDict α) : dkeys (d ++ e) = dkeys d ++ dkeys e := by
  simp [dkeys]

lemma mem_dkeys_dinsert {α : Type} (d : PyDict α) (k : String) (v : α) (n : String) :
    n ∈ dkeys (dinsert d k v) ↔ n = k ∨ n ∈ dkeys d := by
  rw [mem_dkeys_iff_isSome, dlookup_dinsert]
  by_cases h : n = k
  · simp [h]
  · simp [h, mem_dkeys_iff_isSome]

/-! ### Round step characterisation -/

lemma query_perplexity_api_fst (prompt : String) (timeout : Nat) (env : CallEnv) :
    (query_perplexity_api prompt timeout env).1 = "Perplexity" := by
  unfold query_perplexity_api
  by_cases h : env.apiKey.getD "" = ""
  · simp [h]
  · cases env.api <;> simp [h]

lemma query_agent_fst (agent : AIAgent) (prompt : String) (timeout : Nat) (env : CallEnv) :
    (query_agent agent prompt timeout env).1 = agent.name := by
  unfold query_agent
  by_cases ha : agent.available
  · by_cases hapi : agent.is_api
    · by_cases hp : agent.name = "Perplexity"
      · simp [ha, hapi, hp, query_perplexity_api_fst]
      · simp [ha, hapi, hp]
    · cases env.cli <;> simp [ha, hapi]
  · by_cases hapi : agent.is_api <;> simp [ha, hapi]

/-- Each loop iteration either records a success (inserting the agent's
display name into both `responses` and `all_responses` with the same value)
or records an error (inserting into `errors` only), and never touches the
round number. -/
lemma round_step_spec (prompt : String) (round_num timeout : Nat) (events : Events)
    (st : RoundResult × PyDict String) (p : String × AIAgent) :
    (round_step prompt round_num timeout events st p).1.round = st.1.round ∧
    ((∃ v, (round_step prompt round_num timeout events st p).1.responses
              = dinsert st.1.responses p.2.name v ∧
           (round_step prompt round_num timeout events st p).1.errors = st.1.errors ∧
           (round_step prompt round_num timeout events st p).2 = dinsert st.2 p.2.name v) ∨
     (∃ e, (round_step prompt round_num timeout events st p).1.responses = st.1.responses ∧
           (round_step prompt round_num timeout events st p).1.errors
              = dinsert st.1.errors p.2.name e ∧
           (round_step prompt round_num timeout events st p).2 = st.2)) := by
  obtain ⟨rr, allr⟩ := st
  have hfst := query_agent_fst p.2 prompt timeout (events round_num p.1)
  rcases hq : query_agent p.2 prompt timeout (events round_num p.1) with ⟨nm, resp, err⟩
  rw [hq] at hfst
  simp only at hfst
  subst hfst
  cases err with
  | none =>
      refine ⟨?_, Or.inl ⟨resp, ?_, ?_, ?_⟩⟩ <;> simp [round_step, hq]
  | some e =>
      by_cases he : e = ""
      · subst he
        refine ⟨?_, Or.inl ⟨resp, ?_, ?_, ?_⟩⟩ <;> simp [round_step, hq]
      · refine ⟨?_, Or.inr ⟨e, ?_, ?_, ?_⟩⟩ <;> simp [round_step, hq, he]

/-! ### Round and run invariants -/

/-- The set of per-provider outcome labels of a round result. -/
def labels (rr : RoundResult) : List String := dkeys rr.responses ++ dkeys rr.errors

lemma isSome_option_or {α : Type} (a b : Option α) :
    (a.or b).isSome ↔ a.isSome ∨ b.isSome := by
  cases a <;> simp [Option.or]

lemma foldl_round_step_lookup (prompt : String) (rn t : Nat) (ev : Events)
    (tr : PyDict String) (L : List (String × AIAgent)) :
    ∀ (st : RoundResult × PyDict String),
    (∀ n, dlookup st.2 n = (dlookup st.1.responses n).or (dlookup tr n)) →
    ∀ n, dlookup (L.foldl (round_step prompt rn t ev) st).2 n
        = (dlookup (L.foldl (round_step prompt rn t ev) st).1.responses n).or (dlookup tr n) := by
  induction L with
  | nil => intro st h n; exact h n
  | cons a L ih =>
      intro st h n
      rw [List.foldl_cons]
      apply ih
      obtain ⟨_, hcase⟩ := round_step_spec prompt rn t ev st a
      rcases hcase with ⟨v, hresp, _, hall⟩ | ⟨e, hresp, _, hall⟩
      · intro m
        rw [hall, hresp, dlookup_dinsert, dlookup_dinsert]
        by_cases hm : m = a.2.name
        · simp [hm, Option.or]
        · simp only [if_neg hm]; exact h m
      · intro m; rw [hall, hresp]; exact h m

lemma foldl_round_step_round (prompt : String) (rn t : Nat) (ev : Events)
    (L : List (String × AIAgent)) :
    ∀ (st : RoundResult × PyDict String),
    (L.foldl (round_step prompt rn t ev) st).1.round = st.1.round := by
  induction L with
  | nil => intro st; rfl
  | cons a L ih =>
      intro st
      rw [List.foldl_cons, ih, (round_step_spec prompt rn t ev st a).1]

lemma perm_succ_case (A B M : List String) (n : String) :
    (((A ++ [n]) ++ B) ++ M).Perm ((A ++ B) ++ (n :: M)) := by
  rw [List.perm_iff_count]
  intro a
  by_cases hab : a = n
  all_goals simp [List.count_append, List.count_cons, hab]
  all_goals omega

lemma foldl_round_step_labels (prompt : String) (rn t : Nat) (ev : Events)
    (L : List (String × AIAgent)) :
    ∀ (st : RoundResult × PyDict String),
    (labels st.1 ++ L.map (fun p => p.2.name)).Nodup →
    (∀ n, n ∈ labels (L.foldl (round_step prompt rn t ev) st).1 ↔
        n ∈ labels st.1 ∨ n ∈ L.map (fun p => p.2.name)) ∧
    (labels (L.foldl (round_step prompt rn t ev) st).1).Nodup := by
  induction L with
  | nil =>
      intro st h
      simp only [List.map_nil, List.append_nil] at h
      exact ⟨fun n => by simp, h⟩
  | cons a L ih =>
      intro st h
      have hda := List.nodup_append.mp h
      have hfresh : a.2.name ∉ labels st.1 :=
        fun hmem => hda.2.2 hmem (List.mem_cons_self _ _)
      have hfr : a.2.name ∉ dkeys st.1.responses :=
        fun hm => hfresh (List.mem_append.mpr (Or.inl hm))
      have hfe : a.2.name ∉ dkeys st.1.errors :=
        fun hm => hfresh (List.mem_append.mpr (Or.inr hm))
      obtain ⟨_, hcase⟩ := round_step_spec prompt rn t ev st a
      rw [List.foldl_cons]
      have hlab : labels (round_step prompt rn t ev st a).1
            = (dkeys st.1.responses ++ [a.2.name]) ++ dkeys st.1.errors ∨
          labels (round_step prompt rn t ev st a).1
            = dkeys st.1.responses ++ (dkeys st.1.errors ++ [a.2.name]) := by
        rcases hcase with ⟨v, hresp, herr, _⟩ | ⟨e, hresp, herr, _⟩
        · left
          rw [labels, hresp, herr, dinsert_of_notMem _ _ _ hfr, dkeys_append]
          rfl
        · right
          rw [labels, hresp, herr, dinsert_of_notMem _ _ _ hfe, dkeys_append]
          rfl
      have hnodup' : (labels (round_step prompt rn t ev st a).1
          ++ L.map (fun p => p.2.name)).Nodup := by
        rcases hlab with hl | hl
        · rw [hl]
          exact (perm_succ_case (dkeys st.1.responses) (dkeys st.1.errors)
            (L.map (fun p => p.2.name)) a.2.name).symm.nodup (by simpa [labels] using h)
        · rw [hl, ← List.append_assoc, List.append_assoc _ [a.2.name]]
          simpa [labels] using h
      obtain ⟨hmem, hnd⟩ := ih (round_step prompt rn t ev st a) hnodup'
      refine ⟨fun n => ?_, hnd⟩
      rw [hmem n]
      have hstep : n ∈ labels (round_step prompt rn t ev st a).1 ↔
          n ∈ labels st.1 ∨ n = a.2.name := by
        rcases hlab with hl | hl <;>
          · rw [hl]
            simp [labels, List.mem_append, or_comm, or_assoc, or_left_comm]
      rw [hstep]
      simp [or_comm, or_assoc, or_left_comm]

lemma run_round_lookup (question : String) (rn : Nat) (V : PyDict AIAgent)
    (tr : PyDict String) (t : Nat) (ev : Events) (n : String) :
    dlookup (run_round question rn V tr t ev).2 n
      = (dlookup (run_round question rn V tr t ev).1.responses n).or (dlookup tr n) := by
  unfold run_round
  exact foldl_round_step_lookup _ rn t ev tr V
    ({ round := rn, responses := [], errors := [] }, tr) (fun _ => rfl) n

lemma run_round_round_eq (question : String) (rn : Nat) (V : PyDict AIAgent)
    (tr : PyDict String) (t : Nat) (ev : Events) :
    (run_round question rn V tr t ev).1.round = rn := by
  unfold run_round
  exact foldl_round_step_round _ rn t ev V _

lemma run_round_labels (question : String) (rn : Nat) (V : PyDict AIAgent)
    (tr : PyDict String) (t : Nat) (ev : Events)
    (hnd : (V.map (fun p => p.2.name)).Nodup) :
    (∀ n, n ∈ labels (run_round question rn V tr t ev).1 ↔
        n ∈ V.map (fun p => p.2.name)) ∧
    (labels (run_round question rn V tr t ev).1).Nodup := by
  unfold run_round
  obtain ⟨hmem, hnd'⟩ := foldl_round_step_labels _ rn t ev V
    ({ round := rn, responses := [], errors := [] }, tr) (by simpa [labels, dkeys] using hnd)
  exact ⟨fun n => by simpa [labels, dkeys] using hmem n, hnd'⟩

lemma consult_rounds_succ (question : String) (V : PyDict AIAgent) (t : Nat)
    (ev : Events) (k : Nat) :
    consult_rounds question V t ev (k + 1) =
      ((consult_rounds question V t ev k).1
          ++ [(run_round question (k + 1) V (consult_rounds question V t ev k).2 t ev).1],
       (run_round question (k + 1) V (consult_rounds question V t ev k).2 t ev).2) := by
  rcases h : consult_rounds question V t ev k with ⟨rrs, tr⟩
  rcases h2 : run_round question (k + 1) V tr t ev with ⟨rr, tr'⟩
  simp [consult_rounds, h, h2]

lemma consult_rounds_map_round (question : String) (V : PyDict AIAgent) (t : Nat)
    (ev : Events) : ∀ k,
    ((consult_rounds question V t ev k).1).map RoundResult.round
      = (List.range k).map (· + 1) := by
  intro k
  induction k with
  | zero => simp [consult_rounds]
  | succ k ih =>
      rw [consult_rounds_succ]
      simp [List.range_succ, ih, run_round_round_eq]

lemma consult_rounds_mem_labels (question : String) (V : PyDict AIAgent) (t : Nat)
    (ev : Events) (hnd : (V.map (fun p => p.2.name)).Nodup) :
    ∀ k rr, rr ∈ (consult_rounds question V t ev k).1 →
    (∀ n, n ∈ labels rr ↔ n ∈ V.map (fun p => p.2.name)) ∧ (labels rr).Nodup := by
  intro k
  induction k with
  | zero => intro rr h; simp [consult_rounds] at h
  | succ k ih =>
      intro rr h
      rw [consult_rounds_succ] at h
      rcases List.mem_append.mp h with h | h
      · exact ih rr h
      · rcases List.mem_singleton.mp h with rfl
        exact run_round_labels question (k + 1) V _ t ev hnd

lemma consult_rounds_transcript_mem (question : String) (V : PyDict AIAgent) (t : Nat)
    (ev : Events) : ∀ k n,
    n ∈ dkeys (consult_rounds question V t ev k).2 ↔
      ∃ rr ∈ (consult_rounds question V t ev k).1, n ∈ dkeys rr.responses := by
  intro k
  induction k with
  | zero => intro n; simp [consult_rounds, dkeys]
  | succ k ih =>
      intro n
      rw [consult_rounds_succ]
      simp only [List.mem_append, List.mem_singleton]
      rw [mem_dkeys_iff_isSome, run_round_lookup, isSome_option_or,
        ← mem_dkeys_iff_isSome, ← mem_dkeys_iff_isSome, ih n]
      constructor
      · rintro (h | ⟨rr, hm, hn⟩)
        · exact ⟨_, Or.inr rfl, h⟩
        · exact ⟨rr, Or.inl hm, hn⟩
      · rintro ⟨rr, hm | rfl, hn⟩
        · exact Or.inr ⟨rr, hm, hn⟩
        · exact Or.inl hn

lemma run_consultation_eq (q : String) (agents : PyDict AIAgent)
    (sel : Option (List String)) (R t : Nat) (ev : Events) :
    run_consultation q agents sel R t ev =
      if (available_of (select_agents agents sel)).isEmpty then
        ConsultOutput.error "No AI agents available"
      else
        ConsultOutput.ok
          { question := q
            rounds := (consult_rounds q (available_of (select_agents agents sel)) t ev R).1
            participants := dkeys (available_of (select_agents agents sel))
            unavailable := dkeys ((select_agents agents sel).filter (fun p => !p.2.available)) } := by
  unfold run_consultation
  rcases h : consult_rounds q (available_of (select_agents agents sel)) t ev R with ⟨rrs, tr⟩
  cases he : (available_of (select_agents agents sel)).isEmpty <;> simp [he, h]

lemma run_consultation_ok_inv {q : String} {agents : PyDict AIAgent}
    {sel : Option (List String)} {R t : Nat} {ev : Events} {r : ConsultResult}
    (h : run_consultation q agents sel R t ev = ConsultOutput.ok r) :
    r.rounds = (consult_rounds q (available_of (select_agents agents sel)) t ev R).1 ∧
    r.participants = dkeys (available_of (select_agents agents sel)) ∧
    r.question = q ∧
    r.unavailable = dkeys ((select_agents agents sel).filter (fun p => !p.2.available)) := by
  rw [run_consultation_eq] at h
  cases he : (available_of (select_agents agents sel)).isEmpty
  · rw [he] at h
    simp only [Bool.false_eq_true, if_false, ConsultOutput.ok.injEq] at h
    subst h
    exact ⟨rfl, rfl, rfl, rfl⟩
  · rw [he] at h
    simp at h

/-! ### Claim C3 -/

/-- C3 counterexample: for the unavailable CLI provider named `B`, the
failure reason produced by `query_agent` is `"B CLI not available"`, which is
not the string `"<name> not available"` the claim requires. -/
theorem C3_counterexample :
    query_agent { name := "B", command := ["b"], available := false, is_api := false } "p" 120
        { cli := CliEvent.timedOut, api := ApiEvent.timedOut, apiKey := none }
      = ("B", "", some "B CLI not available") ∧
    "B CLI not available" ≠ "B not available" := by
  exact ⟨rfl, by decide⟩

/-- C3 (amended): for every provider with `available = false`, `query_agent`
returns a failure with reason `"<name> CLI not available"` (CLI provider) or
`"<name> API key not configured"` (API provider), and the result does not
depend on the invocation environment — no invocation is attempted. -/
theorem C3_unavailable_failure (a : AIAgent) (prompt : String) (t : Nat)
    (env env2 : CallEnv) (h : a.available = false) :
    query_agent a prompt t env
      = (a.name, "", some (if a.is_api then a.name ++ " API key not configured"
          else a.name ++ " CLI not available")) ∧
    query_agent a prompt t env = query_agent a prompt t env2 := by
  unfold query_agent
  by_cases hapi : a.is_api <;> simp [h, hapi]

/-- Witness for C3: the amended statement evaluated on a concrete
unavailable CLI provider. -/
theorem C3_unavailable_failure_witness :
    query_agent { name := "B", command := ["b"], available := false, is_api := false } "p" 120
        { cli := CliEvent.exn "boom", api := ApiEvent.timedOut, apiKey := some "k" }
      = ("B", "", some "B CLI not available") ∧
    query_agent { name := "B", command := ["b"], available := false, is_api := false } "p" 120
        { cli := CliEvent.exn "boom", api := ApiEvent.timedOut, apiKey := some "k" }
      = query_agent { name := "B", command := ["b"], available := false, is_api := false } "p" 120
        { cli := CliEvent.completed 0 "x" "", api := ApiEvent.ok none "", apiKey := none } := by
  have h := C3_unavailable_failure
    { name := "B", command := ["b"], available := false, is_api := false } "p" 120
    { cli := CliEvent.exn "boom", api := ApiEvent.timedOut, apiKey := some "k" }
    { cli := CliEvent.completed 0 "x" "", api := ApiEvent.ok none "", apiKey := none } rfl
  exact ⟨h.1.trans (by decide), h.2⟩

/-! ### Claim C7 -/

/-- C7: for an available process-backed provider whose subprocess completes
with a non-zero exit code and a non-empty error stream, `query_agent`
returns a success (error component `none`) whose text is the stripped
standard output with the stripped error stream appended as a
`[stderr: ...]` diagnostic suffix. -/
theorem C7_nonzero_exit_is_success (a : AIAgent) (prompt : String) (t : Nat)
    (env : CallEnv) (rc : Int) (out err : String)
    (ha : a.available = true) (hapi : a.is_api = false)
    (hcli : env.cli = CliEvent.completed rc out err) (hrc : rc ≠ 0) (herr : err ≠ "") :
    query_agent a prompt t env
      = (a.name, pyStrip out ++ "\n[stderr: " ++ pyStrip err ++ "]", none) := by
  unfold query_agent
  simp [ha, hapi, hcli, hrc, herr]

/-- Witness for C7: a concrete agent whose process exits 1 with stderr. -/
theorem C7_nonzero_exit_is_success_witness :
    query_agent { name := "A", command := ["a"], available := true, is_api := false } "p" 120
        { cli := CliEvent.completed 1 " out " " warn ", api := ApiEvent.ok none "", apiKey := none }
      = ("A", "out\n[stderr: warn]", none) := by
  exact (C7_nonzero_exit_is_success
    { name := "A", command := ["a"], available := true, is_api := false } "p" 120
    { cli := CliEvent.completed 1 " out " " warn ", api := ApiEvent.ok none "", apiKey := none }
    1 " out " " warn " rfl rfl rfl (by decide) (by decide)).trans (by decide)

/-! ### Claim C8 -/

/-- C8: when the subprocess of an available CLI provider raises
`TimeoutExpired`, `query_agent` returns failure reason
`"Timeout after <t>s"`; likewise `query_perplexity_api` on a `TimeoutError`
with the API key set. -/
theorem C8_timeout_failure :
    (∀ (a : AIAgent) (prompt : String) (t : Nat) (env : CallEnv),
      a.available = true → a.is_api = false → env.cli = CliEvent.timedOut →
      query_agent a prompt t env
        = (a.name, "", some ("Timeout after " ++ toString t ++ "s"))) ∧
    (∀ (prompt : String) (t : Nat) (env : CallEnv),
      env.apiKey.getD "" ≠ "" → env.api = ApiEvent.timedOut →
      query_perplexity_api prompt t env
        = ("Perplexity", "", some ("Timeout after " ++ toString t ++ "s"))) := by
  constructor
  · intro a prompt t env ha hapi hcli
    unfold query_agent
    simp [ha, hapi, hcli]
  · intro prompt t env hkey hapi
    unfold query_perplexity_api
    simp [hkey, hapi]

/-- Witness for C8: concrete timeouts at `t = 7` for both the process
variant and the remote variant. -/
theorem C8_timeout_failure_witness :
    query_agent { name := "A", command := ["a"], available := true, is_api := false } "p" 7
        { cli := CliEvent.timedOut, api := ApiEvent.ok none "", apiKey := none }
      = ("A", "", some "Timeout after 7s") ∧
    query_perplexity_api "p" 7
        { cli := CliEvent.timedOut, api := ApiEvent.timedOut, apiKey := some "k" }
      = ("Perplexity", "", some "Timeout after 7s") := by
  constructor
  · exact (C8_timeout_failure.1
      { name := "A", command := ["a"], available := true, is_api := false } "p" 7
      { cli := CliEvent.timedOut, api := ApiEvent.ok none "", apiKey := none } rfl rfl rfl).trans
      (by decide)
  · exact (C8_timeout_failure.2 "p" 7
      { cli := CliEvent.timedOut, api := ApiEvent.timedOut, apiKey := some "k" }
      (by decide) rfl).trans (by decide)

/-! ### Claim C9 -/

/-- C9 counterexample: if launching the probe command itself fails at the OS
level (e.g. `which` is missing), `check_cli_available` does not return a
boolean: the exception propagates, because only `CalledProcessError` is
caught. -/
theorem C9_counterexample :
    check_cli_available (ProbeEvent.osError "No such file or directory: which")
      = Except.error "No such file or directory: which" ∧
    check_cli_available (ProbeEvent.osError "No such file or directory: which")
      ≠ Except.ok true ∧
    check_cli_available (ProbeEvent.osError "No such file or directory: which")
      ≠ Except.ok false := by
  exact ⟨rfl, fun h => Except.noConfusion h, fun h => Except.noConfusion h⟩

/-- C9 (amended): whenever the probe command itself runs to completion,
`check_cli_available` returns a boolean — `true` exactly when the probe
exits 0 — and never propagates an error; a nonzero exit (tool not found) is
a normal `false`, not an exception. -/
theorem C9_probe_returns_bool (rc : Int) :
    ∃ b : Bool, check_cli_available (ProbeEvent.completed rc) = Except.ok b ∧
      (b = true ↔ rc = 0) := by
  by_cases h : rc = 0
  · exact ⟨true, by simp [check_cli_available, h], by simp [h]⟩
  · exact ⟨false, by simp [check_cli_available, h], by simp [h]⟩

/-! ### Claim C10 -/

/-- C10: an explicitly given but empty selection list is falsy in Python, so
the selection filter is skipped: the run is identical to a run with no
selection, and when any registered provider is available the run succeeds
with participants equal to all available providers. -/
theorem C10_empty_selection_ignored (q : String) (agents : PyDict AIAgent)
    (R t : Nat) (ev : Events) :
    run_consultation q agents (some []) R t ev = run_consultation q agents none R t ev ∧
    (available_of agents ≠ [] →
      ∃ r, run_consultation q agents (some []) R t ev = ConsultOutput.ok r ∧
        r.participants = dkeys (available_of agents)) := by
  have hsel : select_agents agents (some []) = agents := by simp [select_agents]
  constructor
  · unfold run_consultation
    rw [hsel]
    rfl
  · intro hne
    rw [run_consultation_eq, hsel]
    rw [if_neg (by simpa [List.isEmpty_iff] using hne)]
    exact ⟨_, rfl, rfl⟩

/-- Witness for C10: one registered available provider; the empty selection
list leaves it as the sole participant instead of failing. -/
theorem C10_empty_selection_ignored_witness :
    run_consultation "Q" [("a", { name := "A", command := ["a"], available := true, is_api := false })]
        (some []) 1 120 (fun _ _ => { cli := CliEvent.completed 0 "hi" "", api := ApiEvent.ok none "", apiKey := none })
      = run_consultation "Q" [("a", { name := "A", command := ["a"], available := true, is_api := false })]
        none 1 120 (fun _ _ => { cli := CliEvent.completed 0 "hi" "", api := ApiEvent.ok none "", apiKey := none }) ∧
    ∃ r, run_consultation "Q" [("a", { name := "A", command := ["a"], available := true, is_api := false })]
        (some []) 1 120 (fun _ _ => { cli := CliEvent.completed 0 "hi" "", api := ApiEvent.ok none "", apiKey := none })
      = ConsultOutput.ok r ∧
      r.participants = dkeys (available_of [("a", { name := "A", command := ["a"], available := true, is_api := false })]) := by
  have h := C10_empty_selection_ignored "Q"
    [("a", { name := "A", command := ["a"], available := true, is_api := false })] 1 120
    (fun _ _ => { cli := CliEvent.completed 0 "hi" "", api := ApiEvent.ok none "", apiKey := none })
  exact ⟨h.1, h.2 (by decide)⟩

/-! ### Claim C6 -/

/-- C6: with a non-empty explicit selection, if no selected provider is
available the consultation returns the single top-level error (and no
rounds); otherwise it succeeds and the participants are exactly the keys of
the registered providers that are both selected and available. -/
theorem C6_no_participants_and_selection (q : String) (agents : PyDict AIAgent)
    (l : List String) (R t : Nat) (ev : Events) (hl : l ≠ []) :
    (available_of (select_agents agents (some l)) = [] →
      run_consultation q agents (some l) R t ev
        = ConsultOutput.error "No AI agents available") ∧
    (available_of (select_agents agents (some l)) ≠ [] →
      ∃ r, run_consultation q agents (some l) R t ev = ConsultOutput.ok r ∧
        r.participants
          = (agents.filter (fun p => l.contains p.1 && p.2.available)).map (fun p => p.1)) := by
  have hsel : select_agents agents (some l) = agents.filter (fun p => l.contains p.1) := by
    simp [select_agents, hl]
  constructor
  · intro hemp
    rw [run_consultation_eq, if_pos (by simp [hemp])]
  · intro hne
    rw [run_consultation_eq, if_neg (by simpa [List.isEmpty_iff] using hne)]
    refine ⟨_, rfl, ?_⟩
    show dkeys (available_of (select_agents agents (some l))) = _
    rw [hsel]
    unfold available_of dkeys
    rw [List.filter_filter]
    congr 1
    exact List.filter_congr (fun p _ => Bool.and_comm _ _)

/-- Witness for C6: selection `["b"]` over `{a available, b unavailable}`
hits the error branch; selection `["a"]` yields participants `["a"]`. -/
theorem C6_no_participants_and_selection_witness :
    run_consultation "Q"
        [("a", { name := "A", command := ["a"], available := true, is_api := false }),
         ("b", { name := "B", command := ["b"], available := false, is_api := false })]
        (some ["b"]) 2 120
        (fun _ _ => { cli := CliEvent.completed 0 "hi" "", api := ApiEvent.ok none "", apiKey := none })
      = ConsultOutput.error "No AI agents available" ∧
    ∃ r, run_consultation "Q"
        [("a", { name := "A", command := ["a"], available := true, is_api := false }),
         ("b", { name := "B", command := ["b"], available := false, is_api := false })]
        (some ["a"]) 2 120
        (fun _ _ => { cli := CliEvent.completed 0 "hi" "", api := ApiEvent.ok none "", apiKey := none })
      = ConsultOutput.ok r ∧
      r.participants
        = (([("a", { name := "A", command := ["a"], available := true, is_api := false }),
             ("b", { name := "B", command := ["b"], available := false, is_api := false })] : PyDict AIAgent).filter
            (fun p => (["a"] : List String).contains p.1 && p.2.available)).map (fun p => p.1) := by
  constructor
  · exact (C6_no_participants_and_selection "Q"
      [("a", { name := "A", command := ["a"], available := true, is_api := false }),
       ("b", { name := "B", command := ["b"], available := false, is_api := false })]
      ["b"] 2 120
      (fun _ _ => { cli := CliEvent.completed 0 "hi" "", api := ApiEvent.ok none "", apiKey := none })
      (by decide)).1 (by decide)
  · exact (C6_no_participants_and_selection "Q"
      [("a", { name := "A", command := ["a"], available := true, is_api := false }),
       ("b", { name := "B", command := ["b"], available := false, is_api := false })]
      ["a"] 2 120
      (fun _ _ => { cli := CliEvent.completed 0 "hi" "", api := ApiEvent.ok none "", apiKey := none })
      (by decide)).2 (by decide)

/-! ### Claim C5 -/

/-- C5: the transcript entering round `k+2` (i.e. after round `k+1`) is the
transcript after round `k` updated by round `k+1`: every round success
overwrites that provider's entry, failures leave existing entries untouched
(lookup falls through to the prior transcript), transcript keys are never
removed, and a provider has a transcript entry exactly when it has at least
one recorded success in some earlier round. -/
theorem C5_transcript_evolution (q : String) (V : PyDict AIAgent) (t : Nat) (ev : Events) :
    (∀ k, (consult_rounds q V t ev (k + 1)).1
        = (consult_rounds q V t ev k).1
          ++ [(run_round q (k + 1) V (consult_rounds q V t ev k).2 t ev).1]) ∧
    (∀ k n, dlookup (consult_rounds q V t ev (k + 1)).2 n
        = (dlookup (run_round q (k + 1) V (consult_rounds q V t ev k).2 t ev).1.responses n).or
            (dlookup (consult_rounds q V t ev k).2 n)) ∧
    (∀ k n, n ∈ dkeys (consult_rounds q V t ev k).2 →
        n ∈ dkeys (consult_rounds q V t ev (k + 1)).2) ∧
    (∀ k n, n ∈ dkeys (consult_rounds q V t ev k).2 ↔
        ∃ rr ∈ (consult_rounds q V t ev k).1, n ∈ dkeys rr.responses) := by
  refine ⟨?_, ?_, ?_, consult_rounds_transcript_mem q V t ev⟩
  · intro k
    rw [consult_rounds_succ]
  · intro k n
    rw [consult_rounds_succ]
    exact run_round_lookup q (k + 1) V _ t ev n
  · intro k n h
    rw [mem_dkeys_iff_isSome] at h
    rw [consult_rounds_succ, mem_dkeys_iff_isSome, run_round_lookup, isSome_option_or]
    exact Or.inr h

/-! ### Claim C1 -/

lemma format_contains_block {tr : PyDict String} {p : String × String}
    (hp : p ∈ tr) (hne : p.2 ≠ "") :
    containsStr (format_previous_responses tr) ("--- " ++ p.1 ++ " ---\n" ++ p.2 ++ "\n") := by
  apply mem_joinSep
  exact List.mem_map.mpr ⟨p, List.mem_filter.mpr ⟨hp, decide_eq_true hne⟩, rfl⟩

lemma build_prompt_contains {k : Nat} (hk : k ≠ 1) (q : String) (tr : PyDict String)
    {pat : String} (h : containsStr (format_previous_responses tr) pat) :
    containsStr (build_prompt k q tr) pat := by
  unfold build_prompt
  rw [if_neg hk]
  exact containsStr_append_left _ (containsStr_append_left _ (containsStr_append_left _
    (containsStr_append_right _ h)))

lemma block_contains_name (n t : String) :
    containsStr ("--- " ++ n ++ " ---\n" ++ t ++ "\n") n :=
  ⟨"--- ", " ---\n" ++ t ++ "\n", by simp [String.append_assoc]⟩

/-- C1 (amended): for every round `k ≥ 2` of a run, the prompt built for
round `k` contains, verbatim, the labelled block — and hence the name — of
every provider whose transcript entry from rounds `1..k-1` is non-empty;
and a provider with no success in rounds `1..k-1` contributes no block to
the formatted transcript.  (The original claim fails when a provider's only
success is the empty string: its transcript entry is falsy and
`format_previous_responses` omits it.) -/
theorem C1_prompt_transcript (q : String) (V : PyDict AIAgent) (t : Nat) (ev : Events)
    (k : Nat) (hk : 2 ≤ k) :
    (∀ p ∈ (consult_rounds q V t ev (k - 1)).2, p.2 ≠ "" →
      containsStr (build_prompt k q ((consult_rounds q V t ev (k - 1)).2))
          ("--- " ++ p.1 ++ " ---\n" ++ p.2 ++ "\n") ∧
      containsStr (build_prompt k q ((consult_rounds q V t ev (k - 1)).2)) p.1) ∧
    (∀ n, (¬ ∃ rr ∈ (consult_rounds q V t ev (k - 1)).1, n ∈ dkeys rr.responses) →
      n ∉ (((consult_rounds q V t ev (k - 1)).2).filter (fun p => p.2 ≠ "")).map
            (fun p => p.1)) := by
  have hk1 : k ≠ 1 := by omega
  constructor
  · intro p hp hne
    have hb := format_contains_block hp hne
    exact ⟨build_prompt_contains hk1 q _ hb,
      containsStr_trans (build_prompt_contains hk1 q _ hb) (block_contains_name p.1 p.2)⟩
  · intro n hns hmem
    apply hns
    rw [← consult_rounds_transcript_mem]
    obtain ⟨p, hp, rfl⟩ := List.mem_map.mp hmem
    exact List.mem_map.mpr ⟨p, (List.mem_filter.mp hp).1, rfl⟩

set_option maxRecDepth 10000 in
/-- C1 counterexample: provider `Zork` succeeds in round 1 with the empty
string — so it is present in the transcript — yet the round-2 prompt does
not contain `"Zork"` at all, contradicting the claim that every provider
present in the transcript appears verbatim in the prompt. -/
theorem C1_counterexample :
    (("Zork", "")
        ∈ (consult_rounds "Q"
            [("zork", { name := "Zork", command := ["z"], available := true, is_api := false })]
            120 (fun _ _ => { cli := CliEvent.completed 0 "" "", api := ApiEvent.ok none "",
                              apiKey := none }) 1).2) ∧
    (∃ rr ∈ (consult_rounds "Q"
            [("zork", { name := "Zork", command := ["z"], available := true, is_api := false })]
            120 (fun _ _ => { cli := CliEvent.completed 0 "" "", api := ApiEvent.ok none "",
                              apiKey := none }) 1).1, "Zork" ∈ dkeys rr.responses) ∧
    ¬ containsStr
        (build_prompt 2 "Q"
          ((consult_rounds "Q"
            [("zork", { name := "Zork", command := ["z"], available := true, is_api := false })]
            120 (fun _ _ => { cli := CliEvent.completed 0 "" "", api := ApiEvent.ok none "",
                              apiKey := none }) 1).2))
        "Zork" := by
  refine ⟨by decide, by decide, fun h => ?_⟩
  exact absurd (strContainsB_of_containsStr h) (by decide)

/-- Witness for C1: a provider that succeeds with non-empty text in round 1
appears verbatim in the round-2 prompt. -/
theorem C1_prompt_transcript_witness :
    containsStr
      (build_prompt 2 "Q"
        ((consult_rounds "Q"
          [("z", { name := "Z", command := ["z"], available := true, is_api := false })]
          120 (fun _ _ => { cli := CliEvent.completed 0 "hello" "", api := ApiEvent.ok none "",
                            apiKey := none }) 1).2))
      "Z" :=
  ((C1_prompt_transcript "Q"
      [("z", { name := "Z", command := ["z"], available := true, is_api := false })]
      120 (fun _ _ => { cli := CliEvent.completed 0 "hello" "", api := ApiEvent.ok none "",
                        apiKey := none }) 2 (by decide)).1
    ("Z", "hello") (by decide) (by decide)).2

/-! ### Claim C2 -/

/-- C2 counterexample: in the claim's own scenario — `a` (named `A`)
available, `b` (named `B`) unavailable, two rounds — the unavailable
provider receives no entry at all in round 1's result: it is filtered out
before dispatch, so no `Failure("B not available")` entry exists. -/
theorem C2_counterexample :
    run_consultation "Q"
        [("a", { name := "A", command := ["a"], available := true, is_api := false }),
         ("b", { name := "B", command := ["b"], available := false, is_api := false })]
        none 2 120
        (fun r _ => { cli := CliEvent.completed 0 (if r = 1 then "a1" else "a2") "",
                      api := ApiEvent.ok none "", apiKey := none })
      = ConsultOutput.ok
          { question := "Q"
            rounds := [{ round := 1, responses := [("A", "a1")], errors := [] },
                       { round := 2, responses := [("A", "a2")], errors := [] }]
            participants := ["a"]
            unavailable := ["b"] } ∧
    "B" ∉ labels { round := 1, responses := [("A", "a1")], errors := ([] : PyDict String) } ∧
    "b" ∉ labels { round := 1, responses := [("A", "a1")], errors := ([] : PyDict String) } := by
  exact ⟨rfl, by decide, by decide⟩

/-- C2 (amended): in the scenario `{A available, B unavailable}` with two
rounds, each round's result holds only `A`'s outcome; `B` appears in no
round's result and is instead listed once in the report's top-level
`unavailable` list. -/
theorem C2_unavailable_excluded_from_rounds :
    ∃ r, run_consultation "Q"
        [("a", { name := "A", command := ["a"], available := true, is_api := false }),
         ("b", { name := "B", command := ["b"], available := false, is_api := false })]
        none 2 120
        (fun rn _ => { cli := CliEvent.completed 0 (if rn = 1 then "a1" else "a2") "",
                       api := ApiEvent.ok none "", apiKey := none })
      = ConsultOutput.ok r ∧
      r.rounds.map labels = [["A"], ["A"]] ∧
      (∀ rr ∈ r.rounds, "B" ∉ labels rr ∧ "b" ∉ labels rr) ∧
      r.unavailable = ["b"] ∧
      r.participants = ["a"] ∧
      r.rounds.map RoundResult.round = [1, 2] := by
  refine ⟨{ question := "Q"
            rounds := [{ round := 1, responses := [("A", "a1")], errors := [] },
                       { round := 2, responses := [("A", "a2")], errors := [] }]
            participants := ["a"]
            unavailable := ["b"] }, rfl, by decide, by decide, by decide, by decide, by decide⟩

/-! ### Claim C4 -/

/-- C4 counterexample: the round results are keyed by the agents' display
names, not by the participant keys: with the registry entry
`"claude" ↦ Claude` the report's participant set is `["claude"]` while the
round's outcomes are keyed `["Claude"]`, so the participant key `"claude"`
is missing from every round's keying. -/
theorem C4_counterexample :
    run_consultation "Q"
        [("claude", { name := "Claude", command := ["claude", "-p"], available := true,
                      is_api := false })]
        none 1 120
        (fun _ _ => { cli := CliEvent.completed 0 "hi" "", api := ApiEvent.ok none "",
                      apiKey := none })
      = ConsultOutput.ok
          { question := "Q"
            rounds := [{ round := 1, responses := [("Claude", "hi")], errors := [] }]
            participants := ["claude"]
            unavailable := [] } ∧
    "claude" ∉ labels { round := 1, responses := [("Claude", "hi")],
                        errors := ([] : PyDict String) } := by
  exact ⟨rfl, by decide⟩

/-- C4 (amended): a successful consultation report contains exactly `R`
round results, numbered `1..R` in order, and — provided the participants'
display names are pairwise distinct — each round's outcomes are keyed by
exactly the participants' display names, with no duplicate and no missing
provider. -/
theorem C4_rounds_shape (q : String) (agents : PyDict AIAgent) (sel : Option (List String))
    (R t : Nat) (ev : Events) (r : ConsultResult)
    (h : run_consultation q agents sel R t ev = ConsultOutput.ok r)
    (hnd : ((available_of (select_agents agents sel)).map (fun p => p.2.name)).Nodup) :
    r.rounds.map RoundResult.round = (List.range R).map (· + 1) ∧
    ∀ rr ∈ r.rounds,
      (∀ n, n ∈ labels rr ↔
        n ∈ (available_of (select_agents agents sel)).map (fun p => p.2.name)) ∧
      (labels rr).Nodup := by
  obtain ⟨hrounds, -, -, -⟩ := run_consultation_ok_inv h
  rw [hrounds]
  exact ⟨consult_rounds_map_round q _ t ev R,
    fun rr hm => consult_rounds_mem_labels q _ t ev hnd R rr hm⟩

/-- Witness for C4: the amended statement evaluated on a concrete
single-provider run of two rounds. -/
theorem C4_rounds_shape_witness :
    ([{ round := 1, responses := [("Claude", "hi")], errors := [] },
      { round := 2, responses := [("Claude", "hi")], errors := [] }] : List RoundResult).map
        RoundResult.round = (List.range 2).map (· + 1) ∧
    ∀ rr ∈ ([{ round := 1, responses := [("Claude", "hi")], errors := [] },
             { round := 2, responses := [("Claude", "hi")], errors := [] }] : List RoundResult),
      (∀ n, n ∈ labels rr ↔
        n ∈ (available_of (select_agents
              [("claude", { name := "Claude", command := ["claude", "-p"], available := true,
                            is_api := false })] none)).map (fun p => p.2.name)) ∧
      (labels rr).Nodup := by
  have h := C4_rounds_shape "Q"
    [("claude", { name := "Claude", command := ["claude", "-p"], available := true,
                  is_api := false })]
    none 2 120
    (fun _ _ => { cli := CliEvent.completed 0 "hi" "", api := ApiEvent.ok none "",
                  apiKey := none })
    { question := "Q"
      rounds := [{ round := 1, responses := [("Claude", "hi")], errors := [] },
                 { round := 2, responses := [("Claude", "hi")], errors := [] }]
      participants := ["claude"]
      unavailable := [] }
    rfl (by decide)
  exact h

/-- Witness for C5: the transcript-evolution statement evaluated on a
concrete one-provider consultation. -/
theorem C5_transcript_evolution_witness :
    (∀ k, (consult_rounds "Q"
        [("z", { name := "Z", command := ["z"], available := true, is_api := false })]
        120 (fun _ _ => { cli := CliEvent.completed 0 "hello" "", api := ApiEvent.ok none "",
                          apiKey := none }) (k + 1)).1
      = (consult_rounds "Q"
          [("z", { name := "Z", command := ["z"], available := true, is_api := false })]
          120 (fun _ _ => { cli := CliEvent.completed 0 "hello" "", api := ApiEvent.ok none "",
                            apiKey := none }) k).1
        ++ [(run_round "Q" (k + 1)
              [("z", { name := "Z", command := ["z"], available := true, is_api := false })]
              (consult_rounds "Q"
                [("z", { name := "Z", command := ["z"], available := true, is_api := false })]
                120 (fun _ _ => { cli := CliEvent.completed 0 "hello" "", api := ApiEvent.ok none "",
                                  apiKey := none }) k).2
              120 (fun _ _ => { cli := CliEvent.completed 0 "hello" "", api := ApiEvent.ok none "",
                                apiKey := none })).1]) ∧
    (∀ k n, dlookup (consult_rounds "Q"
        [("z", { name := "Z", command := ["z"], available := true, is_api := false })]
        120 (fun _ _ => { cli := CliEvent.completed 0 "hello" "", api := ApiEvent.ok none "",
                          apiKey := none }) (k + 1)).2 n
      = (dlookup (run_round "Q" (k + 1)
            [("z", { name := "Z", command := ["z"], available := true, is_api := false })]
            (consult_rounds "Q"
              [("z", { name := "Z", command := ["z"], available := true, is_api := false })]
              120 (fun _ _ => { cli := CliEvent.completed 0 "hello" "", api := ApiEvent.ok none "",
                                apiKey := none }) k).2
            120 (fun _ _ => { cli := CliEvent.completed 0 "hello" "", api := ApiEvent.ok none "",
                              apiKey := none })).1.responses n).or
          (dlookup (consult_rounds "Q"
            [("z", { name := "Z", command := ["z"], available := true, is_api := false })]
            120 (fun _ _ => { cli := CliEvent.completed 0 "hello" "", api := ApiEvent.ok none "",
                              apiKey := none }) k).2 n)) ∧
    (∀ k n, n ∈ dkeys (consult_rounds "Q"
        [("z", { name := "Z", command := ["z"], available := true, is_api := false })]
        120 (fun _ _ => { cli := CliEvent.completed 0 "hello" "", api := ApiEvent.ok none "",
                          apiKey := none }) k).2 →
      n ∈ dkeys (consult_rounds "Q"
        [("z", { name := "Z", command := ["z"], available := true, is_api := false })]
        120 (fun _ _ => { cli := CliEvent.completed 0 "hello" "", api := ApiEvent.ok none "",
                          apiKey := none }) (k + 1)).2) ∧
    (∀ k n, n ∈ dkeys (consult_rounds "Q"
        [("z", { name := "Z", command := ["z"], available := true, is_api := false })]
        120 (fun _ _ => { cli := CliEvent.completed 0 "hello" "", api := ApiEvent.ok none "",
                          apiKey := none }) k).2 ↔
      ∃ rr ∈ (consult_rounds "Q"
        [("z", { name := "Z", command := ["z"], available := true, is_api := false })]
        120 (fun _ _ => { cli := CliEvent.completed 0 "hello" "", api := ApiEvent.ok none "",
                          apiKey := none }) k).1, n ∈ dkeys rr.responses) :=
  C5_transcript_evolution "Q"
    [("z", { name := "Z", command := ["z"], available := true, is_api := false })]
    120 (fun _ _ => { cli := CliEvent.completed 0 "hello" "", api := ApiEvent.ok none "",
                      apiKey := none })
